import Mathlib

/-!
Shallow embedding of pkg/controller/shared/shared_informer.go: the shared informer
registry of the origin controller package.  Go maps are embedded as association
lists with first-occurrence lookup, pointer-receiver mutation as explicit state
passing, and the fire-and-forget launch of an informer run loop (go informer.Run)
as an emitted launch event paired with the stop channel it was handed.
-/

namespace SharedInformer

/-- Stand-in for the Go reflect.Type token used as the per-kind map key. -/
abbrev InformerType := Nat

/-- Uninterpreted handle for a cache.SharedIndexInformer pipeline; identity matters, the
behaviour of the pipeline itself is outside this core. -/
structure SharedIndexInformer where
  id : Nat
deriving DecidableEq, Repr

/-- schema.GroupResource from the apimachinery package. -/
structure GroupResource where
  group : String
  resource : String
deriving DecidableEq, Repr

/-- Uninterpreted handle for a cache.ListerWatcher. -/
structure ListerWatcher where
  id : Nat
deriving DecidableEq, Repr

/-- Go map read m[k]: the value stored at the first occurrence of the key, or
absence (the nil zero value) when no entry exists. -/
def lookupKey {α β : Type} [DecidableEq α] : List (α × β) → α → Option β
  | [], _ => none
  | (k, v) :: rest, t => if t = k then some v else lookupKey rest t

/-- Go map write m[k] = v: replace the entry for k, or add one when absent. -/
def mapSet {α β : Type} [DecidableEq α] : List (α × β) → α → β → List (α × β)
  | [], k, v => [(k, v)]
  | (k0, v0) :: rest, k, v =>
    if k0 = k then (k, v) :: rest else (k0, v0) :: mapSet rest k v

/-- DefaultListerWatcherOverrides: a map from GroupResource to ListerWatcher. -/
abbrev DefaultListerWatcherOverrides := List (GroupResource × ListerWatcher)

/-- GetListerWatcher: the Go body is the single map read o[resource], yielding the
stored handle or the nil zero value (here none) when the key is absent. -/
def DefaultListerWatcherOverrides.GetListerWatcher
    (o : DefaultListerWatcherOverrides) (resource : GroupResource) :
    Option ListerWatcher :=
  lookupKey o resource

/-- sharedInformerFactory.  The four collaborator handles (the two wrapped informer
bundles and the two clients) are uninterpreted Nat tokens; the ListerWatcherOverrides
interface field is embedded as its lookup function. -/
structure sharedInformerFactory where
  internalKubeInformers : Nat
  kubeInformers : Nat
  kubeClient : Nat
  originClient : Nat
  customListerWatchers : GroupResource → Option ListerWatcher
  defaultResync : Nat
  informers : List (InformerType × SharedIndexInformer)
  coreInformers : List (InformerType × SharedIndexInformer)
  startedInformers : List (InformerType × Bool)
  startedCoreInformers : List (InformerType × Bool)

/-- NewInformerFactory: stores the collaborators and starts with all four maps
empty. -/
def NewInformerFactory (internalKubeInformers kubeInformers kubeClient originClient : Nat)
    (customListerWatchers : GroupResource → Option ListerWatcher)
    (defaultResync : Nat) : sharedInformerFactory where
  internalKubeInformers := internalKubeInformers
  kubeInformers := kubeInformers
  kubeClient := kubeClient
  originClient := originClient
  customListerWatchers := customListerWatchers
  defaultResync := defaultResync
  informers := []
  coreInformers := []
  startedInformers := []
  startedCoreInformers := []

/-- Go boolean map read f.startedInformers[t]: zero value false when absent. -/
def startedGet (m : List (InformerType × Bool)) (t : InformerType) : Bool :=
  (lookupKey m t).getD false

/-- The loop body shared by Start and StartCore: walk the pool map; for each entry
whose started flag is unset, launch its run loop (recorded as an emitted
(informer, stopCh) launch event) and set the flag.  Returns the updated flag map
and the list of launch events. -/
def startLoop (stopCh : Nat) :
    List (InformerType × SharedIndexInformer) → List (InformerType × Bool) →
    List (InformerType × Bool) × List (SharedIndexInformer × Nat)
  | [], started => (started, [])
  | (t, i) :: rest, started =>
    if startedGet started t then
      startLoop stopCh rest started
    else
      let r := startLoop stopCh rest (mapSet started t true)
      (r.1, (i, stopCh) :: r.2)

/-- Start: under the factory lock, launch every not-yet-started informer of the
general pool and mark it started. -/
def sharedInformerFactory.Start (f : sharedInformerFactory) (stopCh : Nat) :
    sharedInformerFactory × List (SharedIndexInformer × Nat) :=
  ({ f with startedInformers := (startLoop stopCh f.informers f.startedInformers).1 },
    (startLoop stopCh f.informers f.startedInformers).2)

/-- StartCore: under the factory lock, launch every not-yet-started informer of the
core pool and mark it started. -/
def sharedInformerFactory.StartCore (f : sharedInformerFactory) (stopCh : Nat) :
    sharedInformerFactory × List (SharedIndexInformer × Nat) :=
  ({ f with startedCoreInformers := (startLoop stopCh f.coreInformers f.startedCoreInformers).1 },
    (startLoop stopCh f.coreInformers f.startedCoreInformers).2)

/-- Facade wrapper for cluster policies: holds only the registry reference. -/
structure clusterPolicyInformer where
  sharedInformerFactory : sharedInformerFactory

/-- Facade wrapper for cluster policy bindings. -/
structure clusterPolicyBindingInformer where
  sharedInformerFactory : sharedInformerFactory

/-- Facade wrapper for policies. -/
structure policyInformer where
  sharedInformerFactory : sharedInformerFactory

/-- Facade wrapper for policy bindings. -/
structure policyBindingInformer where
  sharedInformerFactory : sharedInformerFactory

/-- Facade wrapper for deployment configs. -/
structure deploymentConfigInformer where
  sharedInformerFactory : sharedInformerFactory

/-- Facade wrapper for build configs. -/
structure buildConfigInformer where
  sharedInformerFactory : sharedInformerFactory

/-- Facade wrapper for builds. -/
structure buildInformer where
  sharedInformerFactory : sharedInformerFactory

/-- Facade wrapper for image streams. -/
structure imageStreamInformer where
  sharedInformerFactory : sharedInformerFactory

/-- Facade wrapper for security context constraints. -/
structure securityContextConstraintsInformer where
  sharedInformerFactory : sharedInformerFactory

/-- Facade wrapper for cluster resource quotas. -/
structure clusterResourceQuotaInformer where
  sharedInformerFactory : sharedInformerFactory

/-- Accessor: returns a fresh facade wrapper over the shared registry. -/
def sharedInformerFactory.ClusterPolicies (f : sharedInformerFactory) :
    clusterPolicyInformer := ⟨f⟩

/-- Accessor: returns a fresh facade wrapper over the shared registry. -/
def sharedInformerFactory.ClusterPolicyBindings (f : sharedInformerFactory) :
    clusterPolicyBindingInformer := ⟨f⟩

/-- Accessor: returns a fresh facade wrapper over the shared registry. -/
def sharedInformerFactory.Policies (f : sharedInformerFactory) : policyInformer := ⟨f⟩

/-- Accessor: returns a fresh facade wrapper over the shared registry. -/
def sharedInformerFactory.PolicyBindings (f : sharedInformerFactory) :
    policyBindingInformer := ⟨f⟩

/-- Accessor: returns a fresh facade wrapper over the shared registry. -/
def sharedInformerFactory.DeploymentConfigs (f : sharedInformerFactory) :
    deploymentConfigInformer := ⟨f⟩

/-- Accessor: returns a fresh facade wrapper over the shared registry. -/
def sharedInformerFactory.BuildConfigs (f : sharedInformerFactory) :
    buildConfigInformer := ⟨f⟩

/-- Accessor: returns a fresh facade wrapper over the shared registry. -/
def sharedInformerFactory.Builds (f : sharedInformerFactory) : buildInformer := ⟨f⟩

/-- Accessor: returns a fresh facade wrapper over the shared registry. -/
def sharedInformerFactory.ImageStreams (f : sharedInformerFactory) :
    imageStreamInformer := ⟨f⟩

/-- Accessor: returns a fresh facade wrapper over the shared registry. -/
def sharedInformerFactory.SecurityContextConstraints (f : sharedInformerFactory) :
    securityContextConstraintsInformer := ⟨f⟩

/-- Accessor: returns a fresh facade wrapper over the shared registry. -/
def sharedInformerFactory.ClusterResourceQuotas (f : sharedInformerFactory) :
    clusterResourceQuotaInformer := ⟨f⟩

/-- Passthrough accessor: the wrapped general-purpose informer bundle. -/
def sharedInformerFactory.KubernetesInformers (f : sharedInformerFactory) : Nat :=
  f.kubeInformers

/-- Passthrough accessor: the wrapped internal informer bundle. -/
def sharedInformerFactory.InternalKubernetesInformers (f : sharedInformerFactory) : Nat :=
  f.internalKubeInformers

/-- The two pools of the registry. -/
inductive Pool where
  | core
  | general
deriving DecidableEq, Repr

/-- The pool map selected by a pool tag. -/
def poolMap (f : sharedInformerFactory) : Pool → List (InformerType × SharedIndexInformer)
  | Pool.core => f.coreInformers
  | Pool.general => f.informers

/-- Replace the pool map selected by a pool tag. -/
def setPoolMap (f : sharedInformerFactory) :
    Pool → List (InformerType × SharedIndexInformer) → sharedInformerFactory
  | Pool.core, m => { f with coreInformers := m }
  | Pool.general, m => { f with informers := m }

/-- The data source a pipeline is built from: either an override ListerWatcher
handle or a default client handle. -/
inductive WatchSource where
  | fromListerWatcher (lw : ListerWatcher)
  | fromClient (client : Nat)
deriving DecidableEq, Repr

/-- PipelineSource, the external collaborator: builds a pipeline from a watch
source and a resync interval, or fails with an error code. -/
abbrev PipelineSource := WatchSource → Nat → Except Nat SharedIndexInformer

/-- Modelled from the spec: the per-kind informer constructors that consult the
override table live in facade files absent from src.  Construction consults the
override table for the kind; an entry yields the override handle as the watch
source, absence yields the default client. -/
def pipelineSourceFor (f : sharedInformerFactory) (kind : GroupResource) : WatchSource :=
  match f.customListerWatchers kind with
  | some lw => WatchSource.fromListerWatcher lw
  | none => WatchSource.fromClient f.originClient

/-- Modelled from the spec: the getOrCreate path of the facade files absent from
src.  Under the factory lock: return the cached pipeline for the kind when
present; otherwise construct one through PipelineSource (consulting the override
table), store it on success and return it, and on failure return the error
without caching anything. -/
def getOrCreate (f : sharedInformerFactory) (pool : Pool) (t : InformerType)
    (kind : GroupResource) (newPipeline : PipelineSource) :
    sharedInformerFactory × Except Nat SharedIndexInformer :=
  match lookupKey (poolMap f pool) t with
  | some i => (f, Except.ok i)
  | none =>
    match newPipeline (pipelineSourceFor f kind) f.defaultResync with
    | Except.error e => (f, Except.error e)
    | Except.ok i => (setPoolMap f pool (mapSet (poolMap f pool) t i), Except.ok i)

/-- The reflect.Type token of the build informer in this embedding. -/
def buildType : InformerType := 6

/-- The GroupResource identity of builds. -/
def buildKind : GroupResource := { group := "", resource := "builds" }

/-- Modelled from the spec: each facade resolves through getOrCreate using its own
fixed kind identity and the shared registry reference (the facade implementation
files are absent from src); shown here for the build facade. -/
def buildInformer.Informer (c : buildInformer) (newPipeline : PipelineSource) :
    SharedInformer.sharedInformerFactory × Except Nat SharedIndexInformer :=
  getOrCreate c.sharedInformerFactory Pool.general buildType buildKind newPipeline

/-- A registry operation, for stating frame properties over arbitrary operation
sequences. -/
inductive FactoryOp where
  | start (stopCh : Nat)
  | startCore (stopCh : Nat)
  | resolve (pool : Pool) (t : InformerType) (kind : GroupResource)
      (newPipeline : PipelineSource)

/-- The registry state after one operation. -/
def applyOp (f : sharedInformerFactory) : FactoryOp → sharedInformerFactory
  | FactoryOp.start s => (f.Start s).1
  | FactoryOp.startCore s => (f.StartCore s).1
  | FactoryOp.resolve p t k np => (getOrCreate f p t k np).1

/-- The registry state after a sequence of operations. -/
def applyOps (f : sharedInformerFactory) : List FactoryOp → sharedInformerFactory
  | [] => f
  | op :: rest => applyOps (applyOp f op) rest

/-- A sample registry with one unstarted and one already started entry in the
general pool and one unstarted entry in the core pool. -/
def sampleFactory : sharedInformerFactory where
  internalKubeInformers := 10
  kubeInformers := 11
  kubeClient := 12
  originClient := 13
  customListerWatchers := fun _ => none
  defaultResync := 30
  informers := [(1, ⟨21⟩), (2, ⟨22⟩)]
  coreInformers := [(3, ⟨23⟩)]
  startedInformers := [(2, true)]
  startedCoreInformers := []

/-- A sample freshly built registry whose override table answers every kind. -/
def sampleOverrideFactory : sharedInformerFactory :=
  NewInformerFactory 0 1 2 3 (fun _ => some ⟨9⟩) 30

/-- A sample pipeline constructor that records the watch source it was given in
the id of the pipeline it builds. -/
def sampleSourceNP : PipelineSource := fun src _ =>
  match src with
  | WatchSource.fromListerWatcher lw => Except.ok ⟨lw.id⟩
  | WatchSource.fromClient c => Except.ok ⟨100 + c⟩

/-- A sample pipeline constructor that always succeeds with a fixed pipeline. -/
def sampleNP : PipelineSource := fun _ _ => Except.ok ⟨42⟩

/-- A sample pipeline constructor that always fails. -/
def sampleFailNP : PipelineSource := fun _ _ => Except.error 7

/-- A sample override table with a single entry. -/
def sampleOverrides : DefaultListerWatcherOverrides :=
  [({ group := "g", resource := "r" }, ⟨5⟩)]

/-- Reading a map after a write: the written key now holds the written value,
every other key is unchanged. -/
theorem lookupKey_mapSet {α β : Type} [DecidableEq α] (m : List (α × β)) (k t : α) (v : β) :
    lookupKey (mapSet m k v) t = if t = k then some v else lookupKey m t := by
  induction m with
  | nil => simp [mapSet, lookupKey]
  | cons p rest ih =>
    obtain ⟨k0, v0⟩ := p
    simp only [mapSet]
    by_cases hk : k0 = k
    · subst hk
      simp only [if_pos rfl, lookupKey]
      by_cases ht : t = k0 <;> simp [ht]
    · simp only [if_neg hk, lookupKey, ih]
      by_cases ht : t = k0
      · subst ht
        simp [hk]
      · simp [ht]

/-- Started-flag read after a flag write. -/
theorem startedGet_mapSet (m : List (InformerType × Bool)) (k t : InformerType) (v : Bool) :
    startedGet (mapSet m k v) t = if t = k then v else startedGet m t := by
  simp only [startedGet, lookupKey_mapSet]
  split <;> rfl

/-- The start loop never clears a started flag: a flag already true stays true. -/
theorem startLoop_flag_mono (stopCh : Nat) (m : List (InformerType × SharedIndexInformer))
    (st : List (InformerType × Bool)) (t : InformerType) (h : startedGet st t = true) :
    startedGet (startLoop stopCh m st).1 t = true := by
  induction m generalizing st with
  | nil => exact h
  | cons p rest ih =>
    obtain ⟨k, i⟩ := p
    cases hs : startedGet st k with
    | true => simpa only [startLoop, hs, if_true] using ih st h
    | false =>
      simp only [startLoop, hs, Bool.false_eq_true, if_false]
      exact ih _ (by rw [startedGet_mapSet]; split <;> simp [h])

/-- After the start loop, every informer registered in the iterated pool map has
its started flag set. -/
theorem startLoop_flag_all (stopCh : Nat) (m : List (InformerType × SharedIndexInformer))
    (st : List (InformerType × Bool)) (t : InformerType) (i : SharedIndexInformer)
    (h : (t, i) ∈ m) : startedGet (startLoop stopCh m st).1 t = true := by
  induction m generalizing st with
  | nil => cases h
  | cons p rest ih =>
    obtain ⟨k, j⟩ := p
    rcases List.mem_cons.mp h with heq | hmem
    · obtain ⟨rfl, rfl⟩ := Prod.mk.injEq .. ▸ heq
      cases hs : startedGet st t with
      | true => simpa only [startLoop, hs, if_true] using startLoop_flag_mono stopCh rest st t hs
      | false =>
        simp only [startLoop, hs, Bool.false_eq_true, if_false]
        exact startLoop_flag_mono stopCh rest _ t (by rw [startedGet_mapSet]; simp)
    · cases hs : startedGet st k with
      | true => simpa only [startLoop, hs, if_true] using ih st hmem
      | false =>
        simp only [startLoop, hs, Bool.false_eq_true, if_false]
        exact ih _ hmem

/-- When every registered informer is already started, the start loop is a no-op:
flags unchanged, nothing launched. -/
theorem startLoop_all_started (stopCh : Nat) (m : List (InformerType × SharedIndexInformer))
    (st : List (InformerType × Bool)) (h : ∀ p ∈ m, startedGet st p.1 = true) :
    startLoop stopCh m st = (st, []) := by
  induction m with
  | nil => rfl
  | cons p rest ih =>
    obtain ⟨k, i⟩ := p
    have hk : startedGet st k = true := h (k, i) (List.mem_cons_self _ _)
    simp only [startLoop, hk, if_true]
    exact ih (fun q hq => h q (List.mem_cons_of_mem _ hq))

/-- With distinct keys, the launch events of the start loop are exactly the
entries whose flag was unset when the loop began, in pool order. -/
theorem startLoop_launch_filter (stopCh : Nat)
    (m : List (InformerType × SharedIndexInformer)) (st : List (InformerType × Bool))
    (h : (m.map Prod.fst).Nodup) :
    (startLoop stopCh m st).2 =
      (m.filter fun p => !(startedGet st p.1)).map fun p => (p.2, stopCh) := by
  induction m generalizing st with
  | nil => rfl
  | cons p rest ih =>
    obtain ⟨k, i⟩ := p
    have hk : k ∉ rest.map Prod.fst := (List.nodup_cons.mp (by simpa using h)).1
    have hrest : (rest.map Prod.fst).Nodup := (List.nodup_cons.mp (by simpa using h)).2
    cases hs : startedGet st k with
    | false =>
      simp only [startLoop, hs, Bool.false_eq_true, if_false]
      have hcong : ∀ q ∈ rest,
          (!(startedGet (mapSet st k true) q.1)) = (!(startedGet st q.1)) := by
        intro q hq
        have hne : ¬q.1 = k := fun hqe => hk (hqe ▸ List.mem_map_of_mem Prod.fst hq)
        rw [startedGet_mapSet]
        simp [hne]
      rw [ih _ hrest, List.filter_congr hcong]
      simp [hs]
    | true =>
      simp only [startLoop, hs, if_true]
      rw [ih st hrest]
      simp [hs]

/-- Reading back the pool map that was just replaced. -/
theorem poolMap_setPoolMap (f : sharedInformerFactory) (p : Pool)
    (m : List (InformerType × SharedIndexInformer)) :
    poolMap (setPoolMap f p m) p = m := by
  cases p <;> rfl

/-- Replacing one pool map leaves the other pool map unchanged. -/
theorem poolMap_setPoolMap_ne (f : sharedInformerFactory) (p q : Pool)
    (m : List (InformerType × SharedIndexInformer)) (h : q ≠ p) :
    poolMap (setPoolMap f p m) q = poolMap f q := by
  cases p <;> cases q <;> first | rfl | exact absurd rfl h

/-- Replacing a pool map touches neither started-flag map nor any collaborator
handle. -/
theorem setPoolMap_frame (f : sharedInformerFactory) (p : Pool)
    (m : List (InformerType × SharedIndexInformer)) :
    (setPoolMap f p m).startedInformers = f.startedInformers ∧
    (setPoolMap f p m).startedCoreInformers = f.startedCoreInformers ∧
    (setPoolMap f p m).internalKubeInformers = f.internalKubeInformers ∧
    (setPoolMap f p m).kubeInformers = f.kubeInformers ∧
    (setPoolMap f p m).kubeClient = f.kubeClient ∧
    (setPoolMap f p m).originClient = f.originClient ∧
    (setPoolMap f p m).customListerWatchers = f.customListerWatchers ∧
    (setPoolMap f p m).defaultResync = f.defaultResync := by
  cases p <;> exact ⟨rfl, rfl, rfl, rfl, rfl, rfl, rfl, rfl⟩

/-- getOrCreate on a cache hit: the cached pipeline is returned and the registry
is untouched. -/
theorem getOrCreate_hit (f : sharedInformerFactory) (pool : Pool) (t : InformerType)
    (kind : GroupResource) (np : PipelineSource) (i : SharedIndexInformer)
    (h : lookupKey (poolMap f pool) t = some i) :
    getOrCreate f pool t kind np = (f, Except.ok i) := by
  simp [getOrCreate, h]

/-- getOrCreate on a cache miss with successful construction: the new pipeline is
stored under the kind and returned. -/
theorem getOrCreate_miss_ok (f : sharedInformerFactory) (pool : Pool) (t : InformerType)
    (kind : GroupResource) (np : PipelineSource) (i : SharedIndexInformer)
    (h : lookupKey (poolMap f pool) t = none)
    (hn : np (pipelineSourceFor f kind) f.defaultResync = Except.ok i) :
    getOrCreate f pool t kind np =
      (setPoolMap f pool (mapSet (poolMap f pool) t i), Except.ok i) := by
  simp [getOrCreate, h, hn]

/-- getOrCreate on a cache miss with failing construction: the error is returned
and the registry is untouched. -/
theorem getOrCreate_miss_error (f : sharedInformerFactory) (pool : Pool)
    (t : InformerType) (kind : GroupResource) (np : PipelineSource) (e : Nat)
    (h : lookupKey (poolMap f pool) t = none)
    (hn : np (pipelineSourceFor f kind) f.defaultResync = Except.error e) :
    getOrCreate f pool t kind np = (f, Except.error e) := by
  simp [getOrCreate, h, hn]

/-- getOrCreate never touches the started-flag maps. -/
theorem getOrCreate_flags (f : sharedInformerFactory) (pool : Pool) (t : InformerType)
    (kind : GroupResource) (np : PipelineSource) :
    (getOrCreate f pool t kind np).1.startedInformers = f.startedInformers ∧
    (getOrCreate f pool t kind np).1.startedCoreInformers = f.startedCoreInformers := by
  rcases hl : lookupKey (poolMap f pool) t with _ | j
  · rcases hnp : np (pipelineSourceFor f kind) f.defaultResync with e | i0
    · rw [getOrCreate_miss_error f pool t kind np e hl hnp]
      exact ⟨rfl, rfl⟩
    · rw [getOrCreate_miss_ok f pool t kind np i0 hl hnp]
      exact ⟨(setPoolMap_frame ..).1, (setPoolMap_frame ..).2.1⟩
  · rw [getOrCreate_hit f pool t kind np j hl]
    exact ⟨rfl, rfl⟩

/-- getOrCreate never touches the collaborator handles. -/
theorem getOrCreate_collaborators (f : sharedInformerFactory) (pool : Pool)
    (t : InformerType) (kind : GroupResource) (np : PipelineSource) :
    (getOrCreate f pool t kind np).1.internalKubeInformers = f.internalKubeInformers ∧
    (getOrCreate f pool t kind np).1.kubeInformers = f.kubeInformers := by
  rcases hl : lookupKey (poolMap f pool) t with _ | j
  · rcases hnp : np (pipelineSourceFor f kind) f.defaultResync with e | i0
    · rw [getOrCreate_miss_error f pool t kind np e hl hnp]
      exact ⟨rfl, rfl⟩
    · rw [getOrCreate_miss_ok f pool t kind np i0 hl hnp]
      exact ⟨(setPoolMap_frame ..).2.2.1, (setPoolMap_frame ..).2.2.2.1⟩
  · rw [getOrCreate_hit f pool t kind np j hl]
    exact ⟨rfl, rfl⟩

/-- getOrCreate never removes or replaces a pipeline already stored in either
pool. -/
theorem getOrCreate_lookup_preserved (f : sharedInformerFactory) (pool : Pool)
    (t : InformerType) (kind : GroupResource) (np : PipelineSource) (q : Pool)
    (t2 : InformerType) (i : SharedIndexInformer)
    (h : lookupKey (poolMap f q) t2 = some i) :
    lookupKey (poolMap (getOrCreate f pool t kind np).1 q) t2 = some i := by
  rcases hl : lookupKey (poolMap f pool) t with _ | j
  · rcases hnp : np (pipelineSourceFor f kind) f.defaultResync with e | i0
    · rw [getOrCreate_miss_error f pool t kind np e hl hnp]
      exact h
    · rw [getOrCreate_miss_ok f pool t kind np i0 hl hnp]
      by_cases hq : q = pool
      · subst hq
        rw [poolMap_setPoolMap, lookupKey_mapSet]
        by_cases ht : t2 = t
        · subst ht
          rw [h] at hl
          cases hl
        · simpa [ht] using h
      · rw [poolMap_setPoolMap_ne f pool q _ hq]
        exact h
  · rw [getOrCreate_hit f pool t kind np j hl]
    exact h

/-- One registry operation preserves the two wrapped informer bundle handles. -/
theorem applyOp_collaborators (f : sharedInformerFactory) (op : FactoryOp) :
    (applyOp f op).internalKubeInformers = f.internalKubeInformers ∧
    (applyOp f op).kubeInformers = f.kubeInformers := by
  cases op with
  | start s => exact ⟨rfl, rfl⟩
  | startCore s => exact ⟨rfl, rfl⟩
  | resolve p t k np => exact getOrCreate_collaborators f p t k np

/-- Any sequence of registry operations preserves the two wrapped informer bundle
handles. -/
theorem applyOps_collaborators (ops : List FactoryOp) (f : sharedInformerFactory) :
    (applyOps f ops).internalKubeInformers = f.internalKubeInformers ∧
    (applyOps f ops).kubeInformers = f.kubeInformers := by
  induction ops generalizing f with
  | nil => exact ⟨rfl, rfl⟩
  | cons op rest ih =>
    exact ⟨(ih (applyOp f op)).1.trans (applyOp_collaborators f op).1,
      (ih (applyOp f op)).2.trans (applyOp_collaborators f op).2⟩

/-- C1: for every resource kind and pool, at most one underlying pipeline exists
over the registry lifetime: once a resolution for a kind has returned pipeline i,
every later resolution for that kind returns the identical pipeline instance and
leaves the registry unchanged, whatever constructor or kind descriptor the later
call carries. -/
theorem getOrCreate_singleton_per_kind (f : sharedInformerFactory) (pool : Pool)
    (t : InformerType) (kind kind2 : GroupResource) (np np2 : PipelineSource)
    (i : SharedIndexInformer)
    (h : (getOrCreate f pool t kind np).2 = Except.ok i) :
    getOrCreate (getOrCreate f pool t kind np).1 pool t kind2 np2 =
      ((getOrCreate f pool t kind np).1, Except.ok i) := by
  rcases hl : lookupKey (poolMap f pool) t with _ | j
  · rcases hnp : np (pipelineSourceFor f kind) f.defaultResync with e | i0
    · rw [getOrCreate_miss_error f pool t kind np e hl hnp] at h
      cases h
    · rw [getOrCreate_miss_ok f pool t kind np i0 hl hnp] at h ⊢
      have hi : i0 = i := by simpa using h
      rw [← hi]
      exact getOrCreate_hit _ pool t kind2 np2 i0
        (by rw [poolMap_setPoolMap, lookupKey_mapSet]; simp)
  · rw [getOrCreate_hit f pool t kind np j hl] at h ⊢
    have hj : j = i := by simpa using h
    rw [← hj]
    exact getOrCreate_hit f pool t kind2 np2 j hl

/-- C1 witness: a first resolution constructs pipeline 42; the repeated
resolution returns the identical pipeline and registry even though it carries a
constructor that would fail. -/
theorem getOrCreate_singleton_per_kind_witness :
    getOrCreate (getOrCreate sampleOverrideFactory Pool.general 5 buildKind sampleNP).1
        Pool.general 5 buildKind sampleFailNP =
      ((getOrCreate sampleOverrideFactory Pool.general 5 buildKind sampleNP).1,
        Except.ok ⟨42⟩) :=
  getOrCreate_singleton_per_kind sampleOverrideFactory Pool.general 5 buildKind buildKind
    sampleNP sampleFailNP ⟨42⟩ rfl

/-- C2: once a pool has been started, starting it again launches no run loop at
all and leaves the registry unchanged, for the general pool and the core pool
alike; by induction the state fixed point makes every later start call a no-op,
so each informer run loop is launched at most once through its pool start entry
point. -/
theorem start_launches_once (f : sharedInformerFactory) (s1 s2 : Nat) :
    (f.Start s1).1.Start s2 = ((f.Start s1).1, []) ∧
    (f.StartCore s1).1.StartCore s2 = ((f.StartCore s1).1, []) := by
  constructor
  · have hall : ∀ p ∈ f.informers,
        startedGet (startLoop s1 f.informers f.startedInformers).1 p.1 = true :=
      fun p hp => startLoop_flag_all s1 _ _ p.1 p.2 (by simpa using hp)
    simp only [sharedInformerFactory.Start]
    rw [startLoop_all_started s2 _ _ hall]
  · have hall : ∀ p ∈ f.coreInformers,
        startedGet (startLoop s1 f.coreInformers f.startedCoreInformers).1 p.1 = true :=
      fun p hp => startLoop_flag_all s1 _ _ p.1 p.2 (by simpa using hp)
    simp only [sharedInformerFactory.StartCore]
    rw [startLoop_all_started s2 _ _ hall]

/-- C3: Start reads and writes only the general pool bookkeeping, StartCore only
the core pool bookkeeping: after Start the core pool map and core started-flag
map are unchanged, and after StartCore the general pool map and general
started-flag map are unchanged. -/
theorem start_frame (f : sharedInformerFactory) (s : Nat) :
    (f.Start s).1.coreInformers = f.coreInformers ∧
    (f.Start s).1.startedCoreInformers = f.startedCoreInformers ∧
    (f.StartCore s).1.informers = f.informers ∧
    (f.StartCore s).1.startedInformers = f.startedInformers :=
  ⟨rfl, rfl, rfl, rfl⟩

/-- C4: one Start call launches exactly the run loops of the general-pool
informers whose started flag is false at call time (each recorded as a launch
event handed the stop channel, never awaited) and afterwards every registered
general-pool informer is marked started; StartCore does the same over the core
pool. -/
theorem start_launches_unstarted (f : sharedInformerFactory) (s : Nat)
    (hg : (f.informers.map Prod.fst).Nodup)
    (hc : (f.coreInformers.map Prod.fst).Nodup) :
    ((f.Start s).2 =
      (f.informers.filter fun p => !(startedGet f.startedInformers p.1)).map
        fun p => (p.2, s)) ∧
    (∀ t i, (t, i) ∈ f.informers →
      startedGet (f.Start s).1.startedInformers t = true) ∧
    ((f.StartCore s).2 =
      (f.coreInformers.filter fun p => !(startedGet f.startedCoreInformers p.1)).map
        fun p => (p.2, s)) ∧
    (∀ t i, (t, i) ∈ f.coreInformers →
      startedGet (f.StartCore s).1.startedCoreInformers t = true) :=
  ⟨startLoop_launch_filter s _ _ hg,
   fun t i h => startLoop_flag_all s _ _ t i h,
   startLoop_launch_filter s _ _ hc,
   fun t i h => startLoop_flag_all s _ _ t i h⟩

/-- C4 witness: on the sample registry, Start launches exactly the one unstarted
general-pool informer. -/
theorem start_launches_unstarted_witness :
    (sampleFactory.Start 0).2 = [(⟨21⟩, 0)] := by
  have h := start_launches_unstarted sampleFactory 0 (by decide) (by decide)
  rw [h.1]
  rfl

/-- C5: on a cache miss the pipeline for a kind is built from the watch source
selected by the override table, and the stored and returned result is exactly
what PipelineSource produces from that source and the default resync interval:
an override entry for the kind yields the override handle as the source, absence
of an entry yields the default client. -/
theorem override_selects_source (f : sharedInformerFactory) (pool : Pool)
    (t : InformerType) (kind : GroupResource) (np : PipelineSource)
    (h : lookupKey (poolMap f pool) t = none) :
    (getOrCreate f pool t kind np).2 = np (pipelineSourceFor f kind) f.defaultResync ∧
    (∀ lw, f.customListerWatchers kind = some lw →
      pipelineSourceFor f kind = WatchSource.fromListerWatcher lw) ∧
    (f.customListerWatchers kind = none →
      pipelineSourceFor f kind = WatchSource.fromClient f.originClient) := by
  refine ⟨?_, ?_, ?_⟩
  · rcases hnp : np (pipelineSourceFor f kind) f.defaultResync with e | i0
    · rw [getOrCreate_miss_error f pool t kind np e h hnp]
    · rw [getOrCreate_miss_ok f pool t kind np i0 h hnp]
  · intro lw hlw
    simp [pipelineSourceFor, hlw]
  · intro hn
    simp [pipelineSourceFor, hn]

/-- C5 witness: with an override table answering the build kind with handle 9 and
a constructor recording its watch source, the constructed pipeline carries the
override handle, not the default client. -/
theorem override_selects_source_witness :
    (getOrCreate sampleOverrideFactory Pool.general 5 buildKind sampleSourceNP).2 =
      Except.ok ⟨9⟩ := by
  have h := override_selects_source sampleOverrideFactory Pool.general 5 buildKind
    sampleSourceNP rfl
  rw [h.1]
  rfl

/-- C6: GetListerWatcher is a pure lookup on the override table: a key with no
entry yields absence (nil), and a stored key yields exactly the handle stored for
it; the table itself is never touched (the embedding of the Go body is a single
map read). -/
theorem getListerWatcher_pure_lookup (o : DefaultListerWatcherOverrides)
    (r : GroupResource) :
    ((∀ lw, (r, lw) ∉ o) → o.GetListerWatcher r = none) ∧
    (∀ lw, (o.map Prod.fst).Nodup → (r, lw) ∈ o → o.GetListerWatcher r = some lw) := by
  constructor
  · intro h
    induction o with
    | nil => rfl
    | cons p rest ih =>
      obtain ⟨k, v⟩ := p
      simp only [DefaultListerWatcherOverrides.GetListerWatcher, lookupKey]
      by_cases hr : r = k
      · exact absurd (by rw [hr]; exact List.mem_cons_self _ _) (h v)
      · simp only [if_neg hr]
        exact ih (fun lw hlw => h lw (List.mem_cons_of_mem _ hlw))
  · intro lw hnd hmem
    induction o with
    | nil => cases hmem
    | cons p rest ih =>
      obtain ⟨k, v⟩ := p
      simp only [DefaultListerWatcherOverrides.GetListerWatcher, lookupKey]
      rcases List.mem_cons.mp hmem with heq | hm
      · cases heq
        simp
      · have hk : k ∉ rest.map Prod.fst := (List.nodup_cons.mp (by simpa using hnd)).1
        have hr : ¬r = k := fun hre => hk (hre ▸ List.mem_map_of_mem Prod.fst hm)
        simp only [if_neg hr]
        exact ih ((List.nodup_cons.mp (by simpa using hnd)).2) hm

/-- C6 witness: on a one-entry table the stored handle is returned for its key. -/
theorem getListerWatcher_pure_lookup_witness :
    sampleOverrides.GetListerWatcher { group := "g", resource := "r" } =
      some ⟨5⟩ :=
  (getListerWatcher_pure_lookup sampleOverrides _).2 ⟨5⟩ (by decide) (by decide)

/-- C7: the two passthrough accessors round-trip construction: whatever sequence
of registry operations runs after NewInformerFactory, KubernetesInformers still
returns the kubeInformers bundle supplied at construction and
InternalKubernetesInformers the internalKubeInformers bundle. -/
theorem passthrough_roundtrip (a b c d : Nat)
    (lwf : GroupResource → Option ListerWatcher) (resync : Nat)
    (ops : List FactoryOp) :
    (applyOps (NewInformerFactory a b c d lwf resync) ops).KubernetesInformers = b ∧
    (applyOps (NewInformerFactory a b c d lwf resync) ops).InternalKubernetesInformers
      = a :=
  ⟨(applyOps_collaborators ops _).2, (applyOps_collaborators ops _).1⟩

/-- C8: every facade accessor returns a fresh wrapper holding exactly the shared
registry reference and nothing else, mutating no registry state; two facades for
the same kind backed by the same registry are interchangeable: their resolutions
agree. -/
theorem facade_accessors_stateless (f : sharedInformerFactory) :
    ((f.ClusterPolicies).sharedInformerFactory = f ∧
     (f.ClusterPolicyBindings).sharedInformerFactory = f ∧
     (f.Policies).sharedInformerFactory = f ∧
     (f.PolicyBindings).sharedInformerFactory = f ∧
     (f.DeploymentConfigs).sharedInformerFactory = f ∧
     (f.BuildConfigs).sharedInformerFactory = f ∧
     (f.Builds).sharedInformerFactory = f ∧
     (f.ImageStreams).sharedInformerFactory = f ∧
     (f.SecurityContextConstraints).sharedInformerFactory = f ∧
     (f.ClusterResourceQuotas).sharedInformerFactory = f) ∧
    (∀ g1 g2 : buildInformer, ∀ np : PipelineSource,
      g1.sharedInformerFactory = g2.sharedInformerFactory →
      g1.Informer np = g2.Informer np) := by
  refine ⟨⟨rfl, rfl, rfl, rfl, rfl, rfl, rfl, rfl, rfl, rfl⟩, ?_⟩
  intro g1 g2 np h
  cases g1
  cases g2
  cases h
  rfl

/-- C8 witness: the facade returned by the Builds accessor and a second facade
wrapper over the same registry resolve identically. -/
theorem facade_accessors_stateless_witness :
    (sampleFactory.Builds).Informer sampleSourceNP =
      (⟨sampleFactory⟩ : buildInformer).Informer sampleSourceNP :=
  (facade_accessors_stateless sampleFactory).2 sampleFactory.Builds ⟨sampleFactory⟩
    sampleSourceNP rfl

/-- C9: a construction failure is propagated synchronously with the registry left
exactly as it was, so nothing is cached for the failed kind and every other entry
is untouched; a retry for the same kind with a succeeding constructor then
succeeds. -/
theorem construction_failure_not_cached (f : sharedInformerFactory) (pool : Pool)
    (t : InformerType) (kind : GroupResource) (np np2 : PipelineSource) (e : Nat)
    (i : SharedIndexInformer)
    (hmiss : lookupKey (poolMap f pool) t = none)
    (hfail : np (pipelineSourceFor f kind) f.defaultResync = Except.error e)
    (hok : np2 (pipelineSourceFor f kind) f.defaultResync = Except.ok i) :
    getOrCreate f pool t kind np = (f, Except.error e) ∧
    (getOrCreate f pool t kind np2).2 = Except.ok i :=
  ⟨getOrCreate_miss_error f pool t kind np e hmiss hfail,
   by rw [getOrCreate_miss_ok f pool t kind np2 i hmiss hok]⟩

/-- C9 witness: a failing construction for core kind 4 returns error 7 with the
registry unchanged, and an immediate retry with a working constructor succeeds. -/
theorem construction_failure_not_cached_witness :
    getOrCreate sampleOverrideFactory Pool.core 4 buildKind sampleFailNP =
      (sampleOverrideFactory, Except.error 7) ∧
    (getOrCreate sampleOverrideFactory Pool.core 4 buildKind sampleSourceNP).2 =
      Except.ok ⟨9⟩ :=
  construction_failure_not_cached sampleOverrideFactory Pool.core 4 buildKind
    sampleFailNP sampleSourceNP 7 ⟨9⟩ rfl rfl rfl

/-- C10: NewInformerFactory starts with all four maps empty; no registry
operation ever clears a started flag, and no operation removes or replaces an
informer already stored in either pool map. -/
theorem registry_monotone (a b c d : Nat)
    (lwf : GroupResource → Option ListerWatcher) (resync : Nat)
    (f : sharedInformerFactory) (op : FactoryOp) (t : InformerType) :
    (NewInformerFactory a b c d lwf resync).informers = [] ∧
    (NewInformerFactory a b c d lwf resync).coreInformers = [] ∧
    (NewInformerFactory a b c d lwf resync).startedInformers = [] ∧
    (NewInformerFactory a b c d lwf resync).startedCoreInformers = [] ∧
    (startedGet f.startedInformers t = true →
      startedGet (applyOp f op).startedInformers t = true) ∧
    (startedGet f.startedCoreInformers t = true →
      startedGet (applyOp f op).startedCoreInformers t = true) ∧
    (∀ i, lookupKey f.informers t = some i →
      lookupKey (applyOp f op).informers t = some i) ∧
    (∀ i, lookupKey f.coreInformers t = some i →
      lookupKey (applyOp f op).coreInformers t = some i) := by
  refine ⟨rfl, rfl, rfl, rfl, ?_, ?_, ?_, ?_⟩
  · intro h
    cases op with
    | start s => exact startLoop_flag_mono s _ _ t h
    | startCore s => exact h
    | resolve p k kd np => exact (getOrCreate_flags f p k kd np).1 ▸ h
  · intro h
    cases op with
    | start s => exact h
    | startCore s => exact startLoop_flag_mono s _ _ t h
    | resolve p k kd np => exact (getOrCreate_flags f p k kd np).2 ▸ h
  · intro i h
    cases op with
    | start s => exact h
    | startCore s => exact h
    | resolve p k kd np =>
      exact getOrCreate_lookup_preserved f p k kd np Pool.general t i h
  · intro i h
    cases op with
    | start s => exact h
    | startCore s => exact h
    | resolve p k kd np =>
      exact getOrCreate_lookup_preserved f p k kd np Pool.core t i h

/-- C10 witness: the started flag of general kind 2 survives a Start operation. -/
theorem registry_monotone_witness :
    startedGet (applyOp sampleFactory (FactoryOp.start 0)).startedInformers 2 = true :=
  (registry_monotone 0 0 0 0 (fun _ => none) 0 sampleFactory
    (FactoryOp.start 0) 2).2.2.2.2.1 (by rfl)

end SharedInformer
